import Mathlib

/-!
Shallow embedding of the Tournament lifecycle engine of the Game-Zone
repository: the Tournament aggregate (mongoose schema), its pre-save
normalization middleware, the `registerParticipant` / `generateBracket`
instance methods, and the route handlers for unregister, match-result
recording and single-tournament fetch.

Dates are embedded as integers (millisecond timestamps), ObjectIds as
naturals.  Fallible operations return `Except`.
-/

namespace GameZone

/-- Tournament `status` enum: `['upcoming', 'registration', 'live', 'completed', 'cancelled']`. -/
inductive TStatus where
  | upcoming
  | registration
  | live
  | completed
  | cancelled
  deriving DecidableEq, Repr

/-- Participant `status` enum: `['registered', 'confirmed', 'eliminated', 'disqualified']`. -/
inductive PStatus where
  | registered
  | confirmed
  | eliminated
  | disqualified
  deriving DecidableEq, Repr

/-- Match `status` enum: `['scheduled', 'in-progress', 'completed', 'forfeit']`. -/
inductive MStatus where
  | scheduled
  | inProgress
  | completed
  | forfeit
  deriving DecidableEq, Repr

/-- One entry of the `participants` array. -/
structure Participant where
  user : Nat
  registeredAt : Int
  status : PStatus
  deriving DecidableEq, Repr

/-- A match `score` subdocument. -/
structure Score where
  player1 : Nat
  player2 : Nat
  deriving DecidableEq, Repr

/-- One entry of the `schedule.matchList` array (`id` models the subdocument `_id`). -/
structure TMatch where
  id : Nat
  round : Nat
  matchNumber : Nat
  player1 : Option Nat
  player2 : Option Nat
  winner : Option Nat
  score : Score
  status : MStatus
  actualEndTime : Option Int
  deriving DecidableEq, Repr

/-- The `registration` subdocument (fields the core logic reads). -/
structure Registration where
  startDate : Int
  endDate : Int
  isOpen : Bool
  maxParticipants : Nat
  deriving DecidableEq, Repr

/-- The `schedule` subdocument (fields the core logic reads); `matchList`
models the `matches` array (`matches` is a reserved word in Lean). -/
structure Schedule where
  startDate : Int
  endDate : Int
  matchList : List TMatch
  deriving DecidableEq, Repr

/-- The `stats` subdocument (fields the core logic reads or writes). -/
structure Stats where
  totalViews : Nat
  matchesCompleted : Nat
  totalMatches : Nat
  deriving DecidableEq, Repr

/-- The Tournament aggregate root (`moderators` models `chat.moderators`). -/
structure Tournament where
  organizer : Nat
  status : TStatus
  registration : Registration
  schedule : Schedule
  participants : List Participant
  stats : Stats
  moderators : List Nat
  deriving DecidableEq, Repr

/-- Virtual `currentParticipants`:
`this.participants.filter(p => p.status !== 'disqualified').length`. -/
def currentParticipants (t : Tournament) : Nat :=
  (t.participants.filter (fun p => p.status != PStatus.disqualified)).length

/-- The `pre('save')` middleware: recomputes `registration.isOpen` from the
registration window, overwrites `status` from the schedule window, and sets
`stats.totalMatches` to the length of the matches array. -/
def preSave (t : Tournament) (now : Int) : Tournament :=
  let isOpen : Bool :=
    if t.registration.startDate ≤ now ∧ now ≤ t.registration.endDate then true else false
  let status : TStatus :=
    if now < t.schedule.startDate then TStatus.upcoming
    else if t.schedule.startDate ≤ now ∧ now ≤ t.schedule.endDate then TStatus.live
    else if t.schedule.endDate < now then TStatus.completed
    else t.status
  { t with
    registration := { t.registration with isOpen := isOpen }
    status := status
    stats := { t.stats with totalMatches := t.schedule.matchList.length } }

/-- Domain errors raised by `registerParticipant`. -/
inductive RegError where
  | alreadyRegistered
  | registrationClosed
  | tournamentFull
  deriving DecidableEq, Repr

/-- Method `registerParticipant(userId)`: duplicate check, `isOpen` check,
capacity check (in that order), then push `{user, registeredAt: now,
status: 'registered'}` and save (which runs the pre-save middleware). -/
def registerParticipant (t : Tournament) (userId : Nat) (now : Int) :
    Except RegError Tournament :=
  if (t.participants.find? (fun p => p.user == userId)).isSome then
    .error .alreadyRegistered
  else if !t.registration.isOpen then
    .error .registrationClosed
  else if currentParticipants t ≥ t.registration.maxParticipants then
    .error .tournamentFull
  else
    .ok (preSave
      { t with participants := t.participants ++ [⟨userId, now, PStatus.registered⟩] } now)

/-- Domain errors raised by the unregister route. -/
inductive UnregError where
  | notRegistered
  | tournamentStarted
  deriving DecidableEq, Repr

/-- Route `DELETE /:id/unregister`: find the participant index, refuse when
the tournament status is `live` or `completed`, otherwise splice the entry
out and save. -/
def unregisterParticipant (t : Tournament) (userId : Nat) (now : Int) :
    Except UnregError Tournament :=
  match t.participants.findIdx? (fun p => p.user == userId) with
  | none => .error .notRegistered
  | some i =>
    if t.status = TStatus.live ∨ t.status = TStatus.completed then
      .error .tournamentStarted
    else
      .ok (preSave { t with participants := t.participants.eraseIdx i } now)

/-- Domain error raised by `generateBracket`. -/
inductive BracketError where
  | insufficientParticipants
  deriving DecidableEq, Repr

/-- A freshly generated bracket match: `{round, matchNumber, status: 'scheduled'}`,
all other fields at their schema defaults. -/
def newMatch (round matchNumber : Nat) : TMatch :=
  { id := matchNumber
    round := round
    matchNumber := matchNumber
    player1 := none
    player2 := none
    winner := none
    score := ⟨0, 0⟩
    status := MStatus.scheduled
    actualEndTime := none }

/-- The generation loop of `generateBracket`: for `round` from the current
value up to `rounds`, emit `2^(rounds - round)` matches carrying consecutive
`matchNumber` values starting at `matchNumber`. -/
def genMatches (rounds : Nat) (round : Nat) (matchNumber : Nat) : List TMatch :=
  if _h : round ≤ rounds then
    (List.range (2 ^ (rounds - round))).map (fun i => newMatch round (matchNumber + i))
      ++ genMatches rounds (round + 1) (matchNumber + 2 ^ (rounds - round))
  else
    []
termination_by rounds + 1 - round

/-- Method `generateBracket()`: count participants with status `registered`,
fail below 2, otherwise rebuild `schedule.matchList` over
`rounds = ceil(log2(n))` rounds and save. -/
def generateBracket (t : Tournament) (now : Int) : Except BracketError Tournament :=
  let eligible := t.participants.filter (fun p => p.status == PStatus.registered)
  let participantCount := eligible.length
  if participantCount < 2 then
    .error .insufficientParticipants
  else
    let rounds := Nat.clog 2 participantCount
    .ok (preSave
      { t with schedule := { t.schedule with matchList := genMatches rounds 1 1 } } now)

/-- Domain errors raised by the match-result route. -/
inductive MatchError where
  | forbidden
  | matchNotFound
  deriving DecidableEq, Repr

/-- The mutation applied to the targeted match by `PUT /:id/match/:matchId`. -/
def updateMatch (winnerId : Nat) (score : Score) (now : Int) (m : TMatch) : TMatch :=
  { m with
    winner := some winnerId
    score := score
    status := MStatus.completed
    actualEndTime := some now }

/-- `matches.id(matchId)` followed by an in-place mutation: rewrite the first
match whose id matches, `none` when no match resolves. -/
def setFirstMatch (ms : List TMatch) (matchId : Nat) (f : TMatch → TMatch) :
    Option (List TMatch) :=
  match ms with
  | [] => none
  | m :: rest =>
    if m.id == matchId then some (f m :: rest)
    else (setFirstMatch rest matchId f).map (fun ms' => m :: ms')

/-- Route `PUT /:id/match/:matchId`: authorization (organizer or moderator),
match lookup, then set winner/score/status/actualEndTime, increment
`stats.matchesCompleted` and save. -/
def recordMatchResult (t : Tournament) (matchId : Nat) (actorId : Nat)
    (winnerId : Nat) (score : Score) (now : Int) : Except MatchError Tournament :=
  let isOrganizer : Bool := t.organizer == actorId
  let isModerator : Bool := t.moderators.contains actorId
  if !isOrganizer && !isModerator then
    .error .forbidden
  else
    match setFirstMatch t.schedule.matchList matchId (updateMatch winnerId score now) with
    | none => .error .matchNotFound
    | some ms =>
      .ok (preSave
        { t with
          schedule := { t.schedule with matchList := ms }
          stats := { t.stats with matchesCompleted := t.stats.matchesCompleted + 1 } } now)

/-- Route `GET /:id`: when the requester is authenticated, increment
`stats.totalViews` and save (running the pre-save normalization); otherwise
the stored aggregate is untouched. -/
def getTournament (t : Tournament) (authenticated : Bool) (now : Int) : Tournament :=
  if authenticated then
    preSave { t with stats := { t.stats with totalViews := t.stats.totalViews + 1 } } now
  else
    t

/-- Count of matches whose status is `completed` (the right-hand side of
invariant I5). -/
def completedCount (t : Tournament) : Nat :=
  (t.schedule.matchList.filter (fun m => m.status == MStatus.completed)).length

/-- The stored aggregate after a register attempt: the route persists the
updated document on success and leaves the store untouched on a thrown
error. -/
def applyRegister (t : Tournament) (userId : Nat) (now : Int) : Tournament :=
  match registerParticipant t userId now with
  | .ok t' => t'
  | .error _ => t

/-- The stored aggregate after an unregister attempt. -/
def applyUnregister (t : Tournament) (userId : Nat) (now : Int) : Tournament :=
  match unregisterParticipant t userId now with
  | .ok t' => t'
  | .error _ => t

/-- The stored aggregate after a generate-bracket attempt. -/
def applyGenerateBracket (t : Tournament) (now : Int) : Tournament :=
  match generateBracket t now with
  | .ok t' => t'
  | .error _ => t

/-- The stored aggregate after a record-match-result attempt. -/
def applyRecordMatchResult (t : Tournament) (matchId : Nat) (actorId : Nat)
    (winnerId : Nat) (score : Score) (now : Int) : Tournament :=
  match recordMatchResult t matchId actorId winnerId score now with
  | .ok t' => t'
  | .error _ => t

/-- One registration-manager call in a sequence. -/
inductive Op where
  | reg (userId : Nat) (now : Int)
  | unreg (userId : Nat) (now : Int)

/-- Apply one call, keeping the stored state on failure. -/
def applyOp (t : Tournament) (op : Op) : Tournament :=
  match op with
  | .reg u now => applyRegister t u now
  | .unreg u now => applyUnregister t u now

/-- Apply a sequence of register/unregister calls left to right. -/
def applyOps (t : Tournament) (ops : List Op) : Tournament :=
  ops.foldl applyOp t


/-- Whether an `Except` value is a success. -/
def exceptOk {e a : Type} : Except e a → Bool
  | .ok _ => true
  | .error _ => false

/-- The `participants.filter(p => p.status === 'registered').length` local
of `generateBracket` (the count of bracket-eligible participants). -/
def eligibleCount (t : Tournament) : Nat :=
  (t.participants.filter (fun p => p.status == PStatus.registered)).length

/-! ### Concrete fixtures -/

/-- A cancelled tournament: registration window `[0, 10]`, schedule window
`[10, 20]`, no participants or matches. -/
def tCancelled : Tournament :=
  { organizer := 0
    status := TStatus.cancelled
    registration := { startDate := 0, endDate := 10, isOpen := false, maxParticipants := 8 }
    schedule := { startDate := 10, endDate := 20, matchList := [] }
    participants := []
    stats := { totalViews := 0, matchesCompleted := 0, totalMatches := 0 }
    moderators := [] }

/-- A live tournament holding one already-completed match, with stats
satisfying I5 (`matchesCompleted = 1`, `totalMatches = 1`). -/
def tOneCompleted : Tournament :=
  { organizer := 0
    status := TStatus.live
    registration := { startDate := 0, endDate := 10, isOpen := false, maxParticipants := 8 }
    schedule := { startDate := 10, endDate := 20
                  matchList := [{ id := 1, round := 1, matchNumber := 1, player1 := none
                                  player2 := none, winner := some 1, score := ⟨2, 0⟩
                                  status := MStatus.completed, actualEndTime := some 15 }] }
    participants := []
    stats := { totalViews := 0, matchesCompleted := 1, totalMatches := 1 }
    moderators := [] }

/-- A tournament whose stored `registration.isOpen` flag is stale: the flag
is `true` although the registration window `[0, 10]` is already past. -/
def tStaleOpen : Tournament :=
  { organizer := 0
    status := TStatus.registration
    registration := { startDate := 0, endDate := 10, isOpen := true, maxParticipants := 8 }
    schedule := { startDate := 30, endDate := 40, matchList := [] }
    participants := []
    stats := { totalViews := 0, matchesCompleted := 0, totalMatches := 0 }
    moderators := [] }

/-- A tournament whose stored `registration.isOpen` flag is `false`, with
ample capacity. -/
def tClosed : Tournament :=
  { organizer := 0
    status := TStatus.upcoming
    registration := { startDate := 0, endDate := 10, isOpen := false, maxParticipants := 8 }
    schedule := { startDate := 30, endDate := 40, matchList := [] }
    participants := []
    stats := { totalViews := 0, matchesCompleted := 0, totalMatches := 0 }
    moderators := [] }

/-- A tournament with the registration flag `true` and capacity 2 (matching
the spec scenario), schedule in the future, no participants yet. -/
def tOpen : Tournament :=
  { tClosed with
    registration := { startDate := 0, endDate := 10, isOpen := true, maxParticipants := 2 } }

/-- An open tournament whose only participant entry for user 1 is
`disqualified`. -/
def tDisq : Tournament :=
  { tOpen with
    registration := { tOpen.registration with maxParticipants := 8 }
    participants := [⟨1, 0, PStatus.disqualified⟩] }

/-- An open tournament with a single `registered` participant. -/
def tOneReg : Tournament :=
  { tOpen with participants := [⟨1, 0, PStatus.registered⟩] }

/-- An open tournament with four `registered` participants. -/
def t4 : Tournament :=
  { tOpen with
    registration := { tOpen.registration with maxParticipants := 8 }
    participants := [⟨1, 0, PStatus.registered⟩, ⟨2, 0, PStatus.registered⟩,
                     ⟨3, 0, PStatus.registered⟩, ⟨4, 0, PStatus.registered⟩] }

/-- A successful `Except` value differs from every error. -/
theorem exceptOk_ne_error {e a : Type} {x : Except e a} (err : e)
    (h : exceptOk x = true) : x ≠ Except.error err := by
  cases x with
  | ok v => intro hc; cases hc
  | error b => simp [exceptOk] at h

/-! ### C1: the pre-save pass and `cancelled` -/

/-- C1: the pre-save normalization does NOT preserve a `cancelled` status:
on the cancelled fixture at `now = 5` it overwrites status to `upcoming`
and opens registration, and at `now = 25` it overwrites status to
`completed`. -/
theorem preSave_overwrites_cancelled :
    tCancelled.status = TStatus.cancelled ∧
    (preSave tCancelled 5).status = TStatus.upcoming ∧
    (preSave tCancelled 5).registration.isOpen = true ∧
    (preSave tCancelled 25).status = TStatus.completed := by decide

/-! ### C3: recording a result on an already-completed match -/

/-- C3: on a state satisfying I5 whose targeted match is already completed,
a successful `recordMatchResult` (actor = organizer) bumps
`stats.matchesCompleted` to 2 while the count of completed matches stays 1,
breaking the claimed equality. -/
theorem recordMatchResult_breaks_stats_on_recomplete :
    completedCount tOneCompleted = tOneCompleted.stats.matchesCompleted ∧
    tOneCompleted.stats.totalMatches = tOneCompleted.schedule.matchList.length ∧
    exceptOk (recordMatchResult tOneCompleted 1 0 1 ⟨2, 0⟩ 16) = true ∧
    (applyRecordMatchResult tOneCompleted 1 0 1 ⟨2, 0⟩ 16).stats.matchesCompleted = 2 ∧
    completedCount (applyRecordMatchResult tOneCompleted 1 0 1 ⟨2, 0⟩ 16) = 1 := by decide

/-! ### C2: registration-window gating -/

/-- C2 counterexample: on the stale fixture, `userId = 1` is not a
participant and `now = 20` lies after the registration window, yet
`registerParticipant` succeeds (the stored `isOpen` flag is consulted, not
a derivation at call time) and appends a participant. -/
theorem register_outside_window_succeeds_on_stale_flag :
    tStaleOpen.registration.endDate < 20 ∧
    tStaleOpen.participants = [] ∧
    registerParticipant tStaleOpen 1 20 ≠ Except.error RegError.registrationClosed ∧
    exceptOk (registerParticipant tStaleOpen 1 20) = true ∧
    (applyRegister tStaleOpen 1 20).participants.length = 1 := by
  refine ⟨by decide, by decide, exceptOk_ne_error _ (by decide), by decide, by decide⟩

/-- C2 (amended): with no duplicate entry, `registerParticipant` fails with
`RegistrationClosed` exactly on the stored `isOpen` flag, regardless of
capacity, leaving the aggregate unchanged; and the flag is `false` after the
pre-save normalization has run at any time outside the registration
window. -/
theorem register_fails_closed_on_stored_flag (t : Tournament) (userId : Nat)
    (now nowPrev : Int)
    (hdup : t.participants.find? (fun p => p.user == userId) = none)
    (hopen : t.registration.isOpen = false)
    (hout : nowPrev < t.registration.startDate ∨ t.registration.endDate < nowPrev) :
    registerParticipant t userId now = Except.error RegError.registrationClosed ∧
    applyRegister t userId now = t ∧
    (preSave t nowPrev).registration.isOpen = false := by
  have hreg : registerParticipant t userId now = Except.error RegError.registrationClosed := by
    simp [registerParticipant, hdup, hopen]
  refine ⟨hreg, ?_, ?_⟩
  · simp [applyRegister, hreg]
  · have hcond : ¬(t.registration.startDate ≤ nowPrev ∧ nowPrev ≤ t.registration.endDate) := by
      rcases hout with h | h <;> omega
    simp [preSave, hcond]

/-- Witness for C2's amended statement on the closed fixture. -/
theorem register_fails_closed_on_stored_flag_witness :
    registerParticipant tClosed 1 5 = Except.error RegError.registrationClosed ∧
    applyRegister tClosed 1 5 = tClosed ∧
    (preSave tClosed 20).registration.isOpen = false :=
  register_fails_closed_on_stored_flag tClosed 1 5 20 (by decide) (by decide)
    (by decide)

/-! ### C10: the single-tournament fetch -/

/-- C10: `getTournament` is a pure read only for unauthenticated requesters;
an authenticated fetch bumps `stats.totalViews` by exactly one and persists,
which re-runs the normalization pass (isOpen, status, totalMatches all
re-derived), leaving the participant and match data untouched. -/
theorem getTournament_effect (t : Tournament) (now : Int) :
    getTournament t false now = t ∧
    (getTournament t true now).stats.totalViews = t.stats.totalViews + 1 ∧
    (getTournament t true now).registration.isOpen =
      (if t.registration.startDate ≤ now ∧ now ≤ t.registration.endDate then true
       else false) ∧
    (getTournament t true now).status = (preSave t now).status ∧
    (getTournament t true now).stats.totalMatches = t.schedule.matchList.length ∧
    (getTournament t true now).participants = t.participants ∧
    (getTournament t true now).schedule.matchList = t.schedule.matchList := by
  refine ⟨rfl, rfl, rfl, ?_, rfl, rfl, rfl⟩
  simp [getTournament, preSave]

/-! ### C7: match-result authorization -/

/-- C7: an actor who is neither the organizer nor a moderator gets
`Forbidden` from `recordMatchResult`, whatever the targeted match, and the
stored aggregate (matches and stats included) is unchanged. -/
theorem recordMatchResult_forbidden (t : Tournament) (matchId actorId winnerId : Nat)
    (score : Score) (now : Int)
    (ho : actorId ≠ t.organizer) (hm : actorId ∉ t.moderators) :
    recordMatchResult t matchId actorId winnerId score now =
      Except.error MatchError.forbidden ∧
    applyRecordMatchResult t matchId actorId winnerId score now = t := by
  have h1 : (t.organizer == actorId) = false := by
    simp [Ne.symm ho]
  have h2 : t.moderators.contains actorId = false := by
    rw [List.contains_eq_any_beq]
    simp only [List.any_eq_false, beq_iff_eq]
    intro x hx hc
    exact hm (hc ▸ hx)
  have hrec : recordMatchResult t matchId actorId winnerId score now =
      Except.error MatchError.forbidden := by
    simp only [recordMatchResult, h1, h2, Bool.not_false, Bool.and_self, if_true]
  exact ⟨hrec, by simp [applyRecordMatchResult, hrec]⟩

/-- Witness for C7: user 9 is neither organizer nor moderator of the
one-match fixture. -/
theorem recordMatchResult_forbidden_witness :
    recordMatchResult tOneCompleted 1 9 1 ⟨2, 0⟩ 16 =
      Except.error MatchError.forbidden ∧
    applyRecordMatchResult tOneCompleted 1 9 1 ⟨2, 0⟩ 16 = tOneCompleted :=
  recordMatchResult_forbidden tOneCompleted 1 9 1 ⟨2, 0⟩ 16 (by decide) (by decide)

/-! ### C9: the duplicate check spans every participant status -/

/-- C9: a participant entry for `userId` whose status is `disqualified` or
`eliminated` makes a fresh `registerParticipant` call fail with
`AlreadyRegistered`; yet a `disqualified` entry contributes nothing to the
`currentParticipants` capacity count. -/
theorem register_blocked_by_any_status (t : Tournament) (userId : Nat) (now : Int)
    (p : Participant) (hp : p ∈ t.participants) (hu : p.user = userId)
    (hs : p.status = PStatus.disqualified ∨ p.status = PStatus.eliminated) :
    registerParticipant t userId now = Except.error RegError.alreadyRegistered ∧
    (p.status = PStatus.disqualified →
      ∀ ps : List Participant,
        currentParticipants { t with participants := ps ++ [p] } =
          currentParticipants { t with participants := ps }) := by
  constructor
  · have hfound : (t.participants.find? (fun q => q.user == userId)).isSome := by
      rw [List.find?_isSome]
      exact ⟨p, hp, by simp [hu]⟩
    simp [registerParticipant, hfound]
  · intro hdq ps
    simp [currentParticipants, List.filter_append, hdq]

/-- Witness for C9 on the disqualified fixture. -/
theorem register_blocked_by_any_status_witness :
    registerParticipant tDisq 1 5 = Except.error RegError.alreadyRegistered ∧
    ((⟨1, 0, PStatus.disqualified⟩ : Participant).status = PStatus.disqualified →
      ∀ ps : List Participant,
        currentParticipants { tDisq with participants := ps ++ [⟨1, 0, PStatus.disqualified⟩] } =
          currentParticipants { tDisq with participants := ps }) :=
  register_blocked_by_any_status tDisq 1 5 ⟨1, 0, PStatus.disqualified⟩
    (by decide) (by decide) (Or.inl (by decide))

/-! ### C8: bracket preconditions -/

/-- C8: `generateBracket` fails with `InsufficientParticipants` exactly when
fewer than two participants have status `registered` (the matches are then
untouched); participants in any other status do not count toward the
threshold. -/
theorem generateBracket_precondition (t : Tournament) (now : Int) :
    ((t.participants.filter (fun p => p.status == PStatus.registered)).length < 2 →
      generateBracket t now = Except.error BracketError.insufficientParticipants ∧
      applyGenerateBracket t now = t) ∧
    (2 ≤ (t.participants.filter (fun p => p.status == PStatus.registered)).length →
      exceptOk (generateBracket t now) = true) ∧
    (∀ p : Participant, p.status ≠ PStatus.registered →
      (t.participants ++ [p]).filter (fun q => q.status == PStatus.registered) =
        t.participants.filter (fun q => q.status == PStatus.registered)) := by
  refine ⟨?_, ?_, ?_⟩
  · intro h
    have hgen : generateBracket t now = Except.error BracketError.insufficientParticipants := by
      simp [generateBracket, h]
    exact ⟨hgen, by simp [applyGenerateBracket, hgen]⟩
  · intro h
    simp [generateBracket, Nat.not_lt.mpr h, exceptOk]
  · intro p hp
    simp [List.filter_append, hp]

/-- Witness for C8: one registered participant is insufficient, two are
enough, and a `confirmed` entry is not counted. -/
theorem generateBracket_precondition_witness :
    (generateBracket tOneReg 0 = Except.error BracketError.insufficientParticipants ∧
      applyGenerateBracket tOneReg 0 = tOneReg) ∧
    exceptOk (generateBracket t4 0) = true ∧
    (tOneReg.participants ++ [(⟨2, 0, PStatus.confirmed⟩ : Participant)]).filter
        (fun q => q.status == PStatus.registered) =
      tOneReg.participants.filter (fun q => q.status == PStatus.registered) :=
  ⟨(generateBracket_precondition tOneReg 0).1 (by decide),
   (generateBracket_precondition t4 0).2.1 (by decide),
   (generateBracket_precondition tOneReg 0).2.2 ⟨2, 0, PStatus.confirmed⟩ (by decide)⟩

/-! ### C6: the order of registration checks -/

/-- C6: `registerParticipant` checks duplicate, then window, then capacity,
first failure winning; success appends `{userId, registeredAt = now,
status = registered}` after which a second call for the same user fails with
`AlreadyRegistered` whatever the new window or capacity situation; every
failure leaves the aggregate unchanged. -/
theorem register_check_order (t : Tournament) (userId : Nat) (now nowNext : Int) :
    ((t.participants.find? (fun p => p.user == userId)).isSome = true →
      registerParticipant t userId now = Except.error RegError.alreadyRegistered) ∧
    ((t.participants.find? (fun p => p.user == userId)).isSome = false →
      t.registration.isOpen = false →
      registerParticipant t userId now = Except.error RegError.registrationClosed) ∧
    ((t.participants.find? (fun p => p.user == userId)).isSome = false →
      t.registration.isOpen = true →
      t.registration.maxParticipants ≤ currentParticipants t →
      registerParticipant t userId now = Except.error RegError.tournamentFull) ∧
    ((t.participants.find? (fun p => p.user == userId)).isSome = false →
      t.registration.isOpen = true →
      currentParticipants t < t.registration.maxParticipants →
      ∃ t2, registerParticipant t userId now = Except.ok t2 ∧
        t2.participants = t.participants ++ [⟨userId, now, PStatus.registered⟩] ∧
        registerParticipant t2 userId nowNext = Except.error RegError.alreadyRegistered) ∧
    (∀ err : RegError, registerParticipant t userId now = Except.error err →
      applyRegister t userId now = t) := by
  refine ⟨?_, ?_, ?_, ?_, ?_⟩
  · intro h
    simp [registerParticipant, h]
  · intro h hopen
    simp [registerParticipant, h, hopen]
  · intro h hopen hfull
    simp [registerParticipant, h, hopen, Nat.not_lt.mpr hfull]
  · intro h hopen hroom
    refine ⟨preSave
      { t with participants := t.participants ++ [⟨userId, now, PStatus.registered⟩] } now,
      by simp [registerParticipant, h, hopen, Nat.not_le.mpr hroom], rfl, ?_⟩
    have hmem : ((preSave
        { t with participants := t.participants ++ [⟨userId, now, PStatus.registered⟩] }
        now).participants.find? (fun p => p.user == userId)).isSome := by
      rw [List.find?_isSome]
      exact ⟨⟨userId, now, PStatus.registered⟩, by simp [preSave], by simp⟩
    simp [registerParticipant, hmem]
  · intro err herr
    simp [applyRegister, herr]

/-- Witness for C6: on the open, empty, capacity-2 fixture, user 1 registers
successfully at time 5 and a second attempt at time 6 is rejected as a
duplicate; on the closed fixture the window error wins and the aggregate is
unchanged. -/
theorem register_check_order_witness :
    (∃ t2, registerParticipant tOpen 1 5 = Except.ok t2 ∧
      t2.participants = tOpen.participants ++ [⟨1, 5, PStatus.registered⟩] ∧
      registerParticipant t2 1 6 = Except.error RegError.alreadyRegistered) ∧
    registerParticipant tClosed 1 5 = Except.error RegError.registrationClosed ∧
    applyRegister tClosed 1 5 = tClosed :=
  ⟨(register_check_order tOpen 1 5 6).2.2.2.1 (by decide) (by decide) (by decide),
   (register_check_order tClosed 1 5 6).2.1 (by decide) (by decide),
   (register_check_order tClosed 1 5 6).2.2.2.2 RegError.registrationClosed
     ((register_check_order tClosed 1 5 6).2.1 (by decide) (by decide))⟩

/-! ### C5: the capacity invariant -/

/-- The pre-save pass touches neither the participant list nor the
capacity bound. -/
theorem preSave_preserves_participants (t : Tournament) (now : Int) :
    (preSave t now).participants = t.participants ∧
    (preSave t now).registration.maxParticipants = t.registration.maxParticipants :=
  ⟨rfl, rfl⟩

/-- A register attempt keeps the non-disqualified count within capacity. -/
theorem applyRegister_capacity (t : Tournament) (u : Nat) (now : Int)
    (h : currentParticipants t ≤ t.registration.maxParticipants) :
    currentParticipants (applyRegister t u now) ≤
      (applyRegister t u now).registration.maxParticipants := by
  by_cases h1 : (t.participants.find? (fun p => p.user == u)).isSome
  · simpa [applyRegister, registerParticipant, h1] using h
  · by_cases h2 : t.registration.isOpen
    · by_cases h3 : currentParticipants t ≥ t.registration.maxParticipants
      · simpa [applyRegister, registerParticipant, h1, h2, h3] using h
      · have hroom : currentParticipants t < t.registration.maxParticipants :=
          Nat.not_le.mp h3
        have hok : applyRegister t u now = preSave
            { t with participants := t.participants ++ [⟨u, now, PStatus.registered⟩] } now := by
          simp [applyRegister, registerParticipant, h1, h2, h3]
        rw [hok]
        have h5 : currentParticipants (preSave
            { t with participants := t.participants ++ [⟨u, now, PStatus.registered⟩] } now) =
            currentParticipants t + 1 := by
          simp [preSave, currentParticipants, List.filter_append]
        have h6 : (preSave
            { t with participants := t.participants ++ [⟨u, now, PStatus.registered⟩] }
            now).registration.maxParticipants = t.registration.maxParticipants := rfl
        omega
    · have h2f : t.registration.isOpen = false := by
        simpa using h2
      simpa [applyRegister, registerParticipant, h1, h2f] using h

/-- An unregister attempt keeps the non-disqualified count within capacity. -/
theorem applyUnregister_capacity (t : Tournament) (u : Nat) (now : Int)
    (h : currentParticipants t ≤ t.registration.maxParticipants) :
    currentParticipants (applyUnregister t u now) ≤
      (applyUnregister t u now).registration.maxParticipants := by
  rcases hidx : t.participants.findIdx? (fun p => p.user == u) with _ | i
  · simpa [applyUnregister, unregisterParticipant, hidx] using h
  · by_cases hst : t.status = TStatus.live ∨ t.status = TStatus.completed
    · simpa [applyUnregister, unregisterParticipant, hidx, hst] using h
    · have hle : currentParticipants
          (preSave { t with participants := t.participants.eraseIdx i } now) ≤
          currentParticipants t := by
        simp only [preSave, currentParticipants]
        exact ((t.participants.eraseIdx_sublist i).filter _).length_le
      simp only [applyUnregister, unregisterParticipant, hidx, hst, if_false]
      exact le_trans hle h

/-- One step of the register/unregister sequence preserves the bound. -/
theorem applyOp_capacity (t : Tournament) (op : Op)
    (h : currentParticipants t ≤ t.registration.maxParticipants) :
    currentParticipants (applyOp t op) ≤ (applyOp t op).registration.maxParticipants := by
  cases op with
  | reg u now => exact applyRegister_capacity t u now h
  | unreg u now => exact applyUnregister_capacity t u now h

/-- C5: any sequence of register/unregister calls (successes and failures
alike) keeps the count of non-disqualified participants within
`registration.maxParticipants`. -/
theorem capacity_invariant (t : Tournament) (ops : List Op)
    (h : currentParticipants t ≤ t.registration.maxParticipants) :
    currentParticipants (applyOps t ops) ≤
      (applyOps t ops).registration.maxParticipants := by
  induction ops generalizing t with
  | nil => simpa [applyOps] using h
  | cons op rest ih =>
    have hstep := applyOp_capacity t op h
    simpa [applyOps] using ih (applyOp t op) hstep

/-- Witness for C5: a five-call sequence against the capacity-2 fixture. -/
theorem capacity_invariant_witness :
    currentParticipants
        (applyOps tOpen
          [Op.reg 1 5, Op.reg 2 5, Op.reg 3 5, Op.unreg 1 6, Op.reg 3 6]) ≤
      (applyOps tOpen
          [Op.reg 1 5, Op.reg 2 5, Op.reg 3 5, Op.unreg 1 6, Op.reg 3 6]).registration.maxParticipants :=
  capacity_invariant tOpen [Op.reg 1 5, Op.reg 2 5, Op.reg 3 5, Op.unreg 1 6, Op.reg 3 6]
    (by decide)

/-! ### C4: bracket shape -/

/-- Unfolding `genMatches` while the loop guard holds. -/
theorem genMatches_of_le {rounds round k : Nat} (h : round ≤ rounds) :
    genMatches rounds round k =
      (List.range (2 ^ (rounds - round))).map (fun i => newMatch round (k + i)) ++
        genMatches rounds (round + 1) (k + 2 ^ (rounds - round)) := by
  rw [genMatches]
  simp [h]

/-- Unfolding `genMatches` once the loop guard fails. -/
theorem genMatches_of_gt {rounds round k : Nat} (h : rounds < round) :
    genMatches rounds round k = [] := by
  rw [genMatches]
  simp [Nat.not_le.mpr h]

/-- The generation loop emits `2 ^ d - 1` matches when `d` rounds remain. -/
theorem genMatches_length (d : Nat) : ∀ rounds round k : Nat,
    rounds + 1 = round + d → (genMatches rounds round k).length = 2 ^ d - 1 := by
  induction d with
  | zero =>
    intro rounds round k hd
    rw [genMatches_of_gt (by omega)]
    rfl
  | succ d ih =>
    intro rounds round k hd
    have hrr : rounds - round = d := by omega
    rw [genMatches_of_le (by omega), List.length_append, List.length_map,
      List.length_range, hrr, ih rounds (round + 1) (k + 2 ^ d) (by omega)]
    have h1 : 0 < 2 ^ d := pow_pos (by norm_num) d
    have h2 : 2 ^ (d + 1) = 2 * 2 ^ d := by rw [pow_succ]; ring
    omega

/-- The generated `matchNumber` values are consecutive from the running
counter. -/
theorem genMatches_map_matchNumber (d : Nat) : ∀ rounds round k : Nat,
    rounds + 1 = round + d →
    (genMatches rounds round k).map (fun m => m.matchNumber) =
      List.range' k (2 ^ d - 1) := by
  induction d with
  | zero =>
    intro rounds round k hd
    rw [genMatches_of_gt (by omega)]
    rfl
  | succ d ih =>
    intro rounds round k hd
    have hrr : rounds - round = d := by omega
    rw [genMatches_of_le (by omega), List.map_append, hrr,
      ih rounds (round + 1) (k + 2 ^ d) (by omega)]
    have hmap : ((List.range (2 ^ d)).map (fun i => newMatch round (k + i))).map
        (fun m => m.matchNumber) = List.range' k (2 ^ d) := by
      rw [List.map_map, List.range'_eq_map_range]
      rfl
    rw [hmap, List.range'_append_1]
    have h1 : 0 < 2 ^ d := pow_pos (by norm_num) d
    have h2 : 2 ^ (d + 1) = 2 * 2 ^ d := by rw [pow_succ]; ring
    congr 1
    omega

/-- Every generated match carries a round inside the emitted range, status
`scheduled`, and no assigned players. -/
theorem genMatches_mem (d : Nat) : ∀ rounds round k : Nat,
    rounds + 1 = round + d →
    ∀ m ∈ genMatches rounds round k,
      round ≤ m.round ∧ m.round ≤ rounds ∧ m.status = MStatus.scheduled ∧
        m.player1 = none ∧ m.player2 = none := by
  induction d with
  | zero =>
    intro rounds round k hd m hm
    rw [genMatches_of_gt (by omega)] at hm
    cases hm
  | succ d ih =>
    intro rounds round k hd m hm
    rw [genMatches_of_le (by omega)] at hm
    rcases List.mem_append.mp hm with hin | hin
    · rcases List.mem_map.mp hin with ⟨i, _, rfl⟩
      have hrd : (newMatch round (k + i)).round = round := rfl
      exact ⟨Nat.le_of_eq hrd.symm, by omega, rfl, rfl, rfl⟩
    · have hrec := ih rounds (round + 1) (k + 2 ^ (rounds - round)) (by omega) m hin
      exact ⟨by omega, hrec.2.1, hrec.2.2.1, hrec.2.2.2.1, hrec.2.2.2.2⟩

/-- Round `r` receives exactly `2 ^ (rounds - r)` generated matches. -/
theorem genMatches_count (d : Nat) : ∀ rounds round k r : Nat,
    rounds + 1 = round + d → round ≤ r → r ≤ rounds →
    ((genMatches rounds round k).filter (fun m => m.round == r)).length =
      2 ^ (rounds - r) := by
  induction d with
  | zero =>
    intro rounds round k r hd h1 h2
    omega
  | succ d ih =>
    intro rounds round k r hd h1 h2
    rw [genMatches_of_le (by omega), List.filter_append, List.length_append]
    by_cases hr : r = round
    · subst hr
      have hA : ((List.range (2 ^ (rounds - r))).map (fun i => newMatch r (k + i))).filter
          (fun m => m.round == r) =
          (List.range (2 ^ (rounds - r))).map (fun i => newMatch r (k + i)) := by
        rw [List.filter_eq_self]
        intro m hm
        rcases List.mem_map.mp hm with ⟨i, _, rfl⟩
        exact beq_self_eq_true r
      have hB : ((genMatches rounds (r + 1) (k + 2 ^ (rounds - r))).filter
          (fun m => m.round == r)) = [] := by
        rw [List.filter_eq_nil_iff]
        intro m hm
        have h3 := (genMatches_mem d rounds (r + 1) (k + 2 ^ (rounds - r)) (by omega) m hm).1
        simp only [beq_iff_eq]
        omega
      rw [hA, hB, List.length_map, List.length_range]
      rfl
    · have hA : ((List.range (2 ^ (rounds - round))).map (fun i => newMatch round (k + i))).filter
          (fun m => m.round == r) = [] := by
        rw [List.filter_eq_nil_iff]
        intro m hm
        rcases List.mem_map.mp hm with ⟨i, _, rfl⟩
        have hrd : (newMatch round (k + i)).round = round := rfl
        simp only [beq_iff_eq, hrd]
        omega
      rw [hA]
      simp only [List.length_nil, Nat.zero_add]
      exact ih rounds (round + 1) (k + 2 ^ (rounds - round)) r (by omega) (by omega) h2

/-- Geometric sum: `∑ i < n, 2 ^ i = 2 ^ n - 1`. -/
theorem sum_two_pow_range (n : Nat) : ∑ i ∈ Finset.range n, 2 ^ i = 2 ^ n - 1 := by
  induction n with
  | zero => rfl
  | succ n ih =>
    rw [Finset.sum_range_succ, ih]
    have h1 : 0 < 2 ^ n := pow_pos (by norm_num) n
    have h2 : 2 ^ (n + 1) = 2 * 2 ^ n := by rw [pow_succ]; ring
    omega

/-- The per-round match counts of a bracket over `R` rounds sum to
`2 ^ R - 1`. -/
theorem sum_bracket_rounds (R : Nat) :
    ∑ r ∈ Finset.Icc 1 R, 2 ^ (R - r) = 2 ^ R - 1 := by
  have h1 : ∑ r ∈ Finset.Icc 1 R, 2 ^ (R - r) =
      ∑ i ∈ Finset.range R, 2 ^ (R - 1 - i) := by
    rw [← Nat.Ico_succ_right, Finset.sum_Ico_eq_sum_range]
    simp only [Nat.succ_sub_one]
    exact Finset.sum_congr rfl (fun i _ => by congr 1; omega)
  rw [h1, Finset.sum_range_reflect (fun i => 2 ^ i) R, sum_two_pow_range]

/-- `ceil(log2 n) = k` from the two power bounds. -/
theorem clog2_eq {n k : Nat} (hk : 1 ≤ k) (h1 : 2 ^ (k - 1) < n) (h2 : n ≤ 2 ^ k) :
    Nat.clog 2 n = k := by
  have hle : Nat.clog 2 n ≤ k := (Nat.le_pow_iff_clog_le (by norm_num)).mp h2
  have hgt : k - 1 < Nat.clog 2 n := (Nat.pow_lt_iff_lt_clog (by norm_num)).mp h1
  omega

/-- C4: with `n ≥ 2` registered participants, `generateBracket` succeeds and
installs a match collection of `∑_{r=1}^{ceil(log2 n)} 2^(ceil(log2 n) − r)`
matches, round `r` holding `2^(ceil(log2 n) − r)` of them, `matchNumber`
running `1, 2, 3, …` consecutively in list (round) order, every match
`scheduled` with no players; `n = 4` gives 2 rounds and `n = 5` gives 3. -/
theorem generateBracket_shape (t : Tournament) (now : Int)
    (h : 2 ≤ eligibleCount t) :
    ∃ t2, generateBracket t now = Except.ok t2 ∧
      t2.schedule.matchList.length =
        ∑ r ∈ Finset.Icc 1 (Nat.clog 2 (eligibleCount t)),
          2 ^ (Nat.clog 2 (eligibleCount t) - r) ∧
      (∀ r, 1 ≤ r → r ≤ Nat.clog 2 (eligibleCount t) →
        (t2.schedule.matchList.filter (fun m => m.round == r)).length =
          2 ^ (Nat.clog 2 (eligibleCount t) - r)) ∧
      t2.schedule.matchList.map (fun m => m.matchNumber) =
        List.range' 1 t2.schedule.matchList.length ∧
      (∀ m ∈ t2.schedule.matchList,
        m.status = MStatus.scheduled ∧ m.player1 = none ∧ m.player2 = none) ∧
      (eligibleCount t = 4 → Nat.clog 2 (eligibleCount t) = 2) ∧
      (eligibleCount t = 5 → Nat.clog 2 (eligibleCount t) = 3) := by
  have hnot : ¬ eligibleCount t < 2 := Nat.not_lt.mpr h
  refine ⟨preSave
    { t with schedule :=
        { t.schedule with
          matchList := genMatches (Nat.clog 2 (eligibleCount t)) 1 1 } } now, ?_, ?_⟩
  · simp [generateBracket, eligibleCount] at hnot ⊢
    simp [hnot]
  · have hlist : (preSave
        { t with schedule :=
            { t.schedule with
              matchList := genMatches (Nat.clog 2 (eligibleCount t)) 1 1 } }
        now).schedule.matchList = genMatches (Nat.clog 2 (eligibleCount t)) 1 1 := rfl
    rw [hlist]
    have hfuel : Nat.clog 2 (eligibleCount t) + 1 = 1 + Nat.clog 2 (eligibleCount t) := by
      omega
    have hlen := genMatches_length (Nat.clog 2 (eligibleCount t))
      (Nat.clog 2 (eligibleCount t)) 1 1 hfuel
    refine ⟨?_, ?_, ?_, ?_, ?_, ?_⟩
    · rw [hlen, sum_bracket_rounds]
    · intro r hr1 hr2
      exact genMatches_count (Nat.clog 2 (eligibleCount t))
        (Nat.clog 2 (eligibleCount t)) 1 1 r hfuel hr1 hr2
    · rw [hlen]
      exact genMatches_map_matchNumber (Nat.clog 2 (eligibleCount t))
        (Nat.clog 2 (eligibleCount t)) 1 1 hfuel
    · intro m hm
      have h3 := genMatches_mem (Nat.clog 2 (eligibleCount t))
        (Nat.clog 2 (eligibleCount t)) 1 1 hfuel m hm
      exact ⟨h3.2.2.1, h3.2.2.2.1, h3.2.2.2.2⟩
    · intro h4
      rw [h4]
      exact clog2_eq (by norm_num) (by norm_num) (by norm_num)
    · intro h5
      rw [h5]
      exact clog2_eq (by norm_num) (by norm_num) (by norm_num)

/-- Witness for C4 on the four-participant fixture. -/
theorem generateBracket_shape_witness :
    2 ≤ eligibleCount t4 ∧
    (∃ t2, generateBracket t4 0 = Except.ok t2 ∧
      t2.schedule.matchList.length =
        ∑ r ∈ Finset.Icc 1 (Nat.clog 2 (eligibleCount t4)),
          2 ^ (Nat.clog 2 (eligibleCount t4) - r) ∧
      (∀ r, 1 ≤ r → r ≤ Nat.clog 2 (eligibleCount t4) →
        (t2.schedule.matchList.filter (fun m => m.round == r)).length =
          2 ^ (Nat.clog 2 (eligibleCount t4) - r)) ∧
      t2.schedule.matchList.map (fun m => m.matchNumber) =
        List.range' 1 t2.schedule.matchList.length ∧
      (∀ m ∈ t2.schedule.matchList,
        m.status = MStatus.scheduled ∧ m.player1 = none ∧ m.player2 = none) ∧
      (eligibleCount t4 = 4 → Nat.clog 2 (eligibleCount t4) = 2) ∧
      (eligibleCount t4 = 5 → Nat.clog 2 (eligibleCount t4) = 3)) :=
  ⟨by decide, generateBracket_shape t4 0 (by decide)⟩

end GameZone
